import Mathlib

set_option autoImplicit false

/-!
Verification of the symptom-vector encoding and record-lookup pipeline of
`src/main.py` (Clinica AI).

The embedding models the data as pandas delivers it: every cell read from a
CSV file may be missing (pandas `NaN`), so a cell is an `Option String` with
`none` standing for a missing value.  Python exceptions are modelled with
`Except PyError`.
-/

namespace ClinicaAI

/-- The Python exceptions the embedded code can raise. -/
inductive PyError where
  | typeError
  | fileNotFoundError
  | emptyDataError
deriving DecidableEq, Repr

/-- A row of `description.csv`: columns `Disease` and `Description`. -/
structure DescRow where
  disease : Option String
  text : Option String
deriving DecidableEq, Repr

/-- A row of `precautions_df.csv`: columns `Disease` and `Precaution_1 .. 4`. -/
structure PrecRow where
  disease : Option String
  p1 : Option String
  p2 : Option String
  p3 : Option String
  p4 : Option String
deriving DecidableEq, Repr

/-- A row of `medications.csv`: columns `Disease` and `Medication`. -/
structure MedRow where
  disease : Option String
  medication : Option String
deriving DecidableEq, Repr

/-- A row of `diets.csv`: columns `Disease` and `Diet`. -/
structure DietRow where
  disease : Option String
  diet : Option String
deriving DecidableEq, Repr

/-- A row of `workout_df.csv`: key column `disease` (lower-case naming
convention) and value column `workout`. -/
structure WorkRow where
  disease : Option String
  workout : Option String
deriving DecidableEq, Repr

/-- The five reference tables loaded at startup (lines 33-37 of
`src/main.py`), in memory and immutable for the process lifetime. -/
structure Tables where
  description : List DescRow
  precautions : List PrecRow
  medications : List MedRow
  diets : List DietRow
  workout : List WorkRow

/-- The join predicate used by all five lookups in `helper`
(`table[table[keyColumn] == dis]`): pandas string equality, exact and
case-sensitive; a missing key cell (`NaN`) never equals a string. -/
def selRow (key : Option String) (dis : String) : Bool :=
  key == some dis

/-- The description rows matched by `description['Disease'] == dis`. -/
def matchedDesc (t : Tables) (dis : String) : List DescRow :=
  t.description.filter (fun r => selRow r.disease dis)

/-- The precaution rows matched by `precautions['Disease'] == dis`. -/
def matchedPrec (t : Tables) (dis : String) : List PrecRow :=
  t.precautions.filter (fun r => selRow r.disease dis)

/-- The medication rows matched by `medications['Disease'] == dis`. -/
def matchedMed (t : Tables) (dis : String) : List MedRow :=
  t.medications.filter (fun r => selRow r.disease dis)

/-- The diet rows matched by `diets['Disease'] == dis`. -/
def matchedDiet (t : Tables) (dis : String) : List DietRow :=
  t.diets.filter (fun r => selRow r.disease dis)

/-- The workout rows matched by `workout['disease'] == dis`. -/
def matchedWork (t : Tables) (dis : String) : List WorkRow :=
  t.workout.filter (fun r => selRow r.disease dis)

/-- Checks that every cell of a list is a present string, returning the
strings; `none` when some cell is missing. -/
def allStrings : List (Option String) → Option (List String)
  | [] => some []
  | none :: _ => none
  | some s :: rest => (allStrings rest).map (fun ws => s :: ws)

/-- Model of Python `" ".join(ws)` over a list of cell values: it raises
`TypeError` when some element is not a string (a `NaN` cell), otherwise it
returns the strings joined by single spaces. -/
def pyJoinSpace (l : List (Option String)) : Except PyError String :=
  match allStrings l with
  | none => Except.error PyError.typeError
  | some ws => Except.ok (String.intercalate " " ws)

/-- The five components `helper` returns as a tuple: description string,
list of matched precaution rows (each a list of the four cell values),
medication values, diet values and workout values. -/
structure HelperResult where
  desc : String
  pre : List (List (Option String))
  med : List (Option String)
  die : List (Option String)
  wrkout : List (Option String)
deriving DecidableEq, Repr

/-- Embedding of `helper(dis)` (lines 43-58 of `src/main.py`):
`desc` is `" ".join` over the matched Description cells (this is the only
step that can raise, on a missing cell); `pre` is
`[col for col in pre.values]`, one entry per matched row holding the four
precaution cells in column order, unfiltered; `med`, `die` and `wrkout`
collect the single value column of every matched row in table row order. -/
def helper (t : Tables) (dis : String) : Except PyError HelperResult :=
  match pyJoinSpace ((matchedDesc t dis).map (fun r => r.text)) with
  | Except.error e => Except.error e
  | Except.ok d =>
      Except.ok
        { desc := d
          pre := (matchedPrec t dis).map (fun r => [r.p1, r.p2, r.p3, r.p4])
          med := (matchedMed t dis).map (fun r => r.medication)
          die := (matchedDiet t dis).map (fun r => r.diet)
          wrkout := (matchedWork t dis).map (fun r => r.workout) }

/-- Python dict insertion: an existing key is overwritten in place, a new
key is appended (insertion order preserved). -/
def dictInsert (d : List (String × Nat)) (k : String) (v : Nat) : List (String × Nat) :=
  if d.any (fun p => p.1 == k) then
    d.map (fun p => if p.1 = k then (k, v) else p)
  else d ++ [(k, v)]

/-- Embedding of line 39 of `src/main.py`:
`symptoms_dict = {symptom: i for i, symptom in enumerate(training_df.columns[:-1])}` —
a dict from the feature column names (all columns but the trailing label
column) to their positional offsets. -/
def symptoms_dict (cols : List String) : List (String × Nat) :=
  (cols.dropLast).enum.foldl (fun d p => dictInsert d p.2 p.1) []

/-- Python dict lookup (`item in symptoms_dict` / `symptoms_dict[item]`),
as an `Option`. -/
def dictLookup (d : List (String × Nat)) (s : String) : Option Nat :=
  match d.find? (fun p => p.1 == s) with
  | some p => some p.2
  | none => none

/-- One iteration of the loop of `get_predicted_value` (lines 63-65):
`if item in symptoms_dict: input_vector[symptoms_dict[item]] = 1`. -/
def encodeStep (d : List (String × Nat)) (v : List ℚ) (item : String) : List ℚ :=
  match dictLookup d item with
  | some i => v.set i 1
  | none => v

/-- Embedding of the vector construction of `get_predicted_value`
(lines 62-65): start from `np.zeros(len(symptoms_dict))` and set position
`symptoms_dict[item]` to `1` for every known symptom of the input. -/
def input_vector (d : List (String × Nat)) (syms : List String) : List ℚ :=
  syms.foldl (encodeStep d) (List.replicate d.length 0)

/-- Model of `pd.read_csv` applied to the training file at startup
(line 32): a missing file raises `FileNotFoundError`; a file with no
columns to parse raises `EmptyDataError`; otherwise the header yields the
list of column names (pandas mangles duplicate header names, so the names
are distinct). -/
def read_training (file : Option (List String)) : Except PyError (List String) :=
  match file with
  | none => Except.error PyError.fileNotFoundError
  | some [] => Except.error PyError.emptyDataError
  | some cols => Except.ok cols

/-- Startup index build: read the training table, then build
`symptoms_dict` from its columns. -/
def build_index (file : Option (List String)) : Except PyError (List (String × Nat)) :=
  (read_training file).map symptoms_dict

/-- The collection rule stated by the spec for the medication, diet and
workout components: walk the rows in table order and keep the designated
value column of every row whose key matches, with no deduplication and no
sorting. -/
def selectVals (dis : String) : List (Option String × Option String) → List (Option String)
  | [] => []
  | (k, v) :: rest =>
      if k = some dis then v :: selectVals dis rest else selectVals dis rest

/-- A concrete state of the five reference tables used to evaluate the
theorems below: two description rows for `Flu`, two precaution rows (the
first with a missing `Precaution_2` cell), three medication rows with a
repeated value, one diet row and one workout row. -/
def tFlu : Tables :=
  { description := [{ disease := some "Flu", text := some "Flu is common." },
                    { disease := some "Flu", text := some "Drink water." }]
    precautions := [{ disease := some "Flu", p1 := some "rest", p2 := none,
                      p3 := some "fluids", p4 := some "paracetamol" },
                    { disease := some "Flu", p1 := some "e", p2 := some "f",
                      p3 := some "g", p4 := some "h" }]
    medications := [{ disease := some "Flu", medication := some "A" },
                    { disease := some "Flu", medication := some "B" },
                    { disease := some "Flu", medication := some "A" }]
    diets := [{ disease := some "Flu", diet := some "D1" }]
    workout := [{ disease := some "Flu", workout := some "W1" }] }

/-- The result `helper tFlu "Flu"` produces. -/
def fluResult : HelperResult :=
  { desc := "Flu is common. Drink water."
    pre := [[some "rest", none, some "fluids", some "paracetamol"],
            [some "e", some "f", some "g", some "h"]]
    med := [some "A", some "B", some "A"]
    die := [some "D1"]
    wrkout := [some "W1"] }

/-- Tables whose only description row for `X` has a missing (NaN)
Description cell. -/
def tMissingDesc : Tables :=
  { description := [{ disease := some "X", text := none }]
    precautions := [], medications := [], diets := [], workout := [] }

/-- Tables with one description row keyed `Fungal infection`. -/
def tFungal : Tables :=
  { description := [{ disease := some "Fungal infection",
                      text := some "A fungal infection is common." }]
    precautions := [], medications := [], diets := [], workout := [] }

/-- The training columns of the literal scenario of the spec: three feature
columns followed by the label column. -/
def colsEx : List String :=
  ["itching", "skin_rash", "nodal_skin_eruptions", "prognosis"]

/-- A query with one known symptom and one unknown name. -/
def symsEx : List String :=
  ["skin_rash", "zzz"]

/-! ### Shared lemmas about the lookup pipeline -/

theorem selRow_iff (k : Option String) (d : String) : selRow k d = true ↔ k = some d := by
  simp [selRow]

theorem allStrings_of_isSome {l : List (Option String)} (h : ∀ x ∈ l, x.isSome = true) :
    allStrings l = some (l.filterMap id) := by
  induction l with
  | nil => rfl
  | cons a rest ih =>
    cases a with
    | none => simpa using h none (by simp)
    | some s =>
      simp only [allStrings, List.filterMap_cons, id]
      rw [ih (fun x hx => h x (List.mem_cons_of_mem _ hx))]
      rfl

theorem pyJoinSpace_of_isSome {l : List (Option String)} (h : ∀ x ∈ l, x.isSome = true) :
    pyJoinSpace l = Except.ok (String.intercalate " " (l.filterMap id)) := by
  unfold pyJoinSpace
  rw [allStrings_of_isSome h]

theorem helper_ok_parts {t : Tables} {dis : String} {res : HelperResult}
    (h : helper t dis = Except.ok res) :
    res.pre = (matchedPrec t dis).map (fun r => [r.p1, r.p2, r.p3, r.p4]) ∧
    res.med = (matchedMed t dis).map (fun r => r.medication) ∧
    res.die = (matchedDiet t dis).map (fun r => r.diet) ∧
    res.wrkout = (matchedWork t dis).map (fun r => r.workout) ∧
    pyJoinSpace ((matchedDesc t dis).map (fun r => r.text)) = Except.ok res.desc := by
  unfold helper at h
  cases hj : pyJoinSpace ((matchedDesc t dis).map (fun r => r.text)) with
  | error e => rw [hj] at h; cases h
  | ok d =>
    rw [hj] at h
    injection h with h2
    subst h2
    exact ⟨rfl, rfl, rfl, rfl, rfl⟩

theorem helper_eq_of_desc_present {t : Tables} {dis : String}
    (h : ∀ r ∈ matchedDesc t dis, (r.text).isSome = true) :
    helper t dis = Except.ok
      { desc := String.intercalate " " ((matchedDesc t dis).filterMap (fun r => r.text))
        pre := (matchedPrec t dis).map (fun r => [r.p1, r.p2, r.p3, r.p4])
        med := (matchedMed t dis).map (fun r => r.medication)
        die := (matchedDiet t dis).map (fun r => r.diet)
        wrkout := (matchedWork t dis).map (fun r => r.workout) } := by
  have hall : ∀ x ∈ (matchedDesc t dis).map (fun r => r.text), x.isSome = true := by
    intro x hx
    rcases List.mem_map.mp hx with ⟨r, hr, rfl⟩
    exact h r hr
  have hjoin : pyJoinSpace ((matchedDesc t dis).map (fun r => r.text))
      = Except.ok (String.intercalate " " ((matchedDesc t dis).filterMap (fun r => r.text))) := by
    rw [pyJoinSpace_of_isSome hall, List.filterMap_map]
    rfl
  unfold helper
  rw [hjoin]

theorem filter_map_eq_selectVals {α : Type} (key val : α → Option String)
    (dis : String) (l : List α) :
    (l.filter (fun r => selRow (key r) dis)).map val
      = selectVals dis (l.map (fun r => (key r, val r))) := by
  induction l with
  | nil => rfl
  | cons r rest ih =>
    simp only [List.map_cons, List.filter_cons, selectVals]
    by_cases hk : key r = some dis
    · rw [if_pos ((selRow_iff _ _).mpr hk), if_pos hk, List.map_cons, ih]
    · rw [if_neg (fun hcon => hk ((selRow_iff _ _).mp hcon)), if_neg hk, ih]

/-! ### Shared lemmas about the symptom encoder -/

theorem encodeStep_length (d : List (String × Nat)) (v : List ℚ) (a : String) :
    (encodeStep d v a).length = v.length := by
  unfold encodeStep
  cases dictLookup d a <;> simp

theorem foldl_encodeStep_length (d : List (String × Nat)) (syms : List String) :
    ∀ v : List ℚ, (syms.foldl (encodeStep d) v).length = v.length := by
  induction syms with
  | nil => intro v; rfl
  | cons a rest ih =>
    intro v
    rw [List.foldl_cons, ih, encodeStep_length]

theorem encodeStep_getElem (d : List (String × Nat)) (v : List ℚ) (a : String)
    (i : Nat) (hi : i < v.length) :
    (encodeStep d v a)[i]? = if dictLookup d a = some i then some 1 else v[i]? := by
  unfold encodeStep
  cases h : dictLookup d a with
  | none => simp
  | some j =>
    rw [List.getElem?_set]
    by_cases hji : j = i
    · subst hji
      simp [hi]
    · simp [hji]

theorem foldl_encodeStep_getElem (d : List (String × Nat)) (i : Nat) (syms : List String) :
    ∀ v : List ℚ, i < v.length →
      (syms.foldl (encodeStep d) v)[i]?
        = if ∃ s ∈ syms, dictLookup d s = some i then some 1 else v[i]? := by
  induction syms with
  | nil => intro v _; simp
  | cons a rest ih =>
    intro v hi
    rw [List.foldl_cons, ih (encodeStep d v a) (by rw [encodeStep_length]; exact hi),
        encodeStep_getElem d v a i hi]
    by_cases hR : ∃ s ∈ rest, dictLookup d s = some i
    · simp [hR, List.exists_mem_cons_iff]
    · by_cases hA : dictLookup d a = some i
      · simp [hR, hA, List.exists_mem_cons_iff]
      · simp [hR, hA, List.exists_mem_cons_iff]

theorem foldl_encodeStep_filter (d : List (String × Nat)) (syms : List String) :
    ∀ v : List ℚ,
      syms.foldl (encodeStep d) v
        = (syms.filter (fun s => (dictLookup d s).isSome)).foldl (encodeStep d) v := by
  induction syms with
  | nil => intro v; rfl
  | cons a rest ih =>
    intro v
    rw [List.foldl_cons, List.filter_cons]
    cases h : dictLookup d a with
    | some j =>
      rw [if_pos (show (some j).isSome = true from rfl), List.foldl_cons, ih]
    | none =>
      have hstep : encodeStep d v a = v := by unfold encodeStep; rw [h]
      rw [if_neg (by simp), hstep, ih]

theorem foldl_encodeStep_mem (d : List (String × Nat)) (syms : List String) :
    ∀ v : List ℚ, (∀ x ∈ v, x = 0 ∨ x = 1) →
      ∀ x ∈ syms.foldl (encodeStep d) v, x = 0 ∨ x = 1 := by
  induction syms with
  | nil => intro v hv; exact hv
  | cons a rest ih =>
    intro v hv
    cases h : dictLookup d a with
    | none =>
      have hstep : encodeStep d v a = v := by unfold encodeStep; rw [h]
      rw [List.foldl_cons, hstep]
      exact ih v hv
    | some j =>
      have hstep : encodeStep d v a = v.set j 1 := by unfold encodeStep; rw [h]
      rw [List.foldl_cons, hstep]
      refine ih (v.set j 1) ?_
      intro x hx
      rcases List.mem_or_eq_of_mem_set hx with hmem | hone
      · exact hv x hmem
      · exact Or.inr hone

/-! ### Shared lemmas about the index build -/

theorem dictInsert_new {d : List (String × Nat)} {k : String} (v : Nat)
    (h : ∀ q ∈ d, q.1 ≠ k) : dictInsert d k v = d ++ [(k, v)] := by
  have hc : (d.any fun p => p.1 == k) = false := by
    simp only [List.any_eq_false, beq_iff_eq]
    exact h
  unfold dictInsert
  simp [hc]

theorem foldl_dictInsert_eq_append :
    ∀ (l : List (Nat × String)) (d : List (String × Nat)),
      (l.map Prod.snd).Nodup →
      (∀ p ∈ l, ∀ q ∈ d, q.1 ≠ p.2) →
      l.foldl (fun acc p => dictInsert acc p.2 p.1) d = d ++ l.map (fun p => (p.2, p.1)) := by
  intro l
  induction l with
  | nil => intro d _ _; simp
  | cons p rest ih =>
    intro d hnd hdisj
    have hnd2 : (rest.map Prod.snd).Nodup := by
      rw [List.map_cons, List.nodup_cons] at hnd
      exact hnd.2
    have hnotin : p.2 ∉ rest.map Prod.snd := by
      rw [List.map_cons, List.nodup_cons] at hnd
      exact hnd.1
    have hdisj2 : ∀ q ∈ rest, ∀ r ∈ d ++ [(p.2, p.1)], r.1 ≠ q.2 := by
      intro q hq r hr
      rcases List.mem_append.mp hr with hrd | hrp
      · exact hdisj q (List.mem_cons_of_mem _ hq) r hrd
      · have hre : r = (p.2, p.1) := by simpa using hrp
        subst hre
        intro heq
        have heq2 : p.2 = q.2 := heq
        exact hnotin (by rw [heq2]; exact List.mem_map_of_mem Prod.snd hq)
    simp only [List.foldl_cons]
    rw [dictInsert_new p.1 (fun q hq => hdisj p (List.mem_cons_self p rest) q hq),
        ih (d ++ [(p.2, p.1)]) hnd2 hdisj2]
    simp

theorem symptoms_dict_eq_enum {cols : List String} (h : cols.Nodup) :
    symptoms_dict cols = (cols.dropLast).enum.map (fun p => (p.2, p.1)) := by
  have hnd : ((cols.dropLast).enum.map Prod.snd).Nodup := by
    rw [List.enum_map_snd]
    exact List.Nodup.sublist (List.dropLast_sublist cols) h
  have hfold := foldl_dictInsert_eq_append (cols.dropLast).enum [] hnd
    (fun p _ q hq => absurd hq (List.not_mem_nil q))
  unfold symptoms_dict
  rw [hfold]
  simp

theorem symptoms_dict_keys {cols : List String} (h : cols.Nodup) :
    (symptoms_dict cols).map (fun p => p.1) = cols.dropLast := by
  rw [symptoms_dict_eq_enum h, List.map_map]
  have hc : ((fun p : String × Nat => p.1) ∘ (fun p : Nat × String => (p.2, p.1)))
      = Prod.snd := by
    funext p
    rfl
  rw [hc, List.enum_map_snd]

theorem symptoms_dict_vals {cols : List String} (h : cols.Nodup) :
    (symptoms_dict cols).map (fun p => p.2) = List.range (cols.length - 1) := by
  rw [symptoms_dict_eq_enum h, List.map_map]
  have hc : ((fun p : String × Nat => p.2) ∘ (fun p : Nat × String => (p.2, p.1)))
      = Prod.fst := by
    funext p
    rfl
  rw [hc, List.enum_map_fst, List.length_dropLast]

/-! ### Claim theorems -/

/-- C1: for every disease label with zero matching rows in every one of the
five reference tables, `helper` returns, with no exception, a bundle whose
description is the empty string and whose precaution, medication, diet and
workout components are all empty. -/
theorem helper_unmatched_label_all_empty (t : Tables) (D : String)
    (h1 : matchedDesc t D = []) (h2 : matchedPrec t D = [])
    (h3 : matchedMed t D = []) (h4 : matchedDiet t D = [])
    (h5 : matchedWork t D = []) :
    helper t D = Except.ok { desc := "", pre := [], med := [], die := [], wrkout := [] } := by
  unfold helper
  rw [h1, h2, h3, h4, h5]
  rfl

/-- C1 witness: the concrete tables `tFlu` have no row for the label `Pox`,
and the lookup returns the all-empty bundle. -/
theorem helper_unmatched_label_all_empty_witness :
    matchedDesc tFlu "Pox" = [] ∧ matchedPrec tFlu "Pox" = [] ∧
    matchedMed tFlu "Pox" = [] ∧ matchedDiet tFlu "Pox" = [] ∧
    matchedWork tFlu "Pox" = [] ∧
    helper tFlu "Pox" = Except.ok { desc := "", pre := [], med := [], die := [], wrkout := [] } :=
  ⟨rfl, rfl, rfl, rfl, rfl,
   helper_unmatched_label_all_empty tFlu "Pox" rfl rfl rfl rfl rfl⟩

/-- C2 counterexample: with two matched precaution rows, the first holding a
missing `Precaution_2` cell, the precautions component of `helper` keeps one
entry per matched row (not only the first) and keeps the missing cell
(`none`) instead of excluding it, contradicting the claim that the component
consists of only the first matched row's fields with empty or missing fields
excluded. -/
theorem helper_pre_first_row_filtered_cex :
    (helper tFlu "Flu").map (fun r => r.pre)
      = Except.ok [[some "rest", none, some "fluids", some "paracetamol"],
                   [some "e", some "f", some "g", some "h"]] ∧
    (helper tFlu "Flu").map (fun r => r.pre.length) = Except.ok 2 :=
  ⟨rfl, rfl⟩

/-- C2 amended: the precautions component of `helper` holds one entry per
matched row, in table row order, each entry being that row's four
precaution cells in the fixed order `Precaution_1 .. 4` with no filtering of
empty or missing cells; with zero matching rows it is the empty list. -/
theorem helper_pre_component (t : Tables) (D : String) (res : HelperResult)
    (h : helper t D = Except.ok res) :
    res.pre = (matchedPrec t D).map (fun r => [r.p1, r.p2, r.p3, r.p4]) ∧
    (matchedPrec t D = [] → res.pre = []) := by
  refine ⟨(helper_ok_parts h).1, fun he => ?_⟩
  rw [(helper_ok_parts h).1, he]
  rfl

/-- C2 witness: the amended statement evaluated on the concrete `tFlu`. -/
theorem helper_pre_component_witness :
    fluResult.pre = (matchedPrec tFlu "Flu").map (fun r => [r.p1, r.p2, r.p3, r.p4]) ∧
    (matchedPrec tFlu "Flu" = [] → fluResult.pre = []) :=
  helper_pre_component tFlu "Flu" fluResult rfl

/-- C3 counterexample: a matched description row with a missing (NaN)
Description cell makes `helper` raise `TypeError` from
`" ".join([w for w in desc])`, contradicting the claim that missing cells in
any column never cause a crash. -/
theorem helper_missing_desc_raises :
    helper tMissingDesc "X" = Except.error PyError.typeError :=
  rfl

/-- C3 amended: whenever every matched description row has a present
Description cell, `helper` does not raise — regardless of missing cells in
the precaution, medication, diet and workout tables, which propagate
verbatim (as `none` entries) into the bundle; a missing Description cell of
a matched row, however, makes `helper` raise `TypeError`. -/
theorem helper_missing_cells_propagate (t : Tables) (D : String)
    (h : ∀ r ∈ matchedDesc t D, (r.text).isSome = true) :
    helper t D = Except.ok
      { desc := String.intercalate " " ((matchedDesc t D).filterMap (fun r => r.text))
        pre := (matchedPrec t D).map (fun r => [r.p1, r.p2, r.p3, r.p4])
        med := (matchedMed t D).map (fun r => r.medication)
        die := (matchedDiet t D).map (fun r => r.diet)
        wrkout := (matchedWork t D).map (fun r => r.workout) } :=
  helper_eq_of_desc_present h

/-- C3 witness: `tFlu` has a missing precaution cell and the lookup still
returns a bundle, with the `none` cell kept. -/
theorem helper_missing_cells_propagate_witness :
    helper tFlu "Flu" = Except.ok
      { desc := String.intercalate " " ((matchedDesc tFlu "Flu").filterMap (fun r => r.text))
        pre := (matchedPrec tFlu "Flu").map (fun r => [r.p1, r.p2, r.p3, r.p4])
        med := (matchedMed tFlu "Flu").map (fun r => r.medication)
        die := (matchedDiet tFlu "Flu").map (fun r => r.diet)
        wrkout := (matchedWork tFlu "Flu").map (fun r => r.workout) } :=
  helper_missing_cells_propagate tFlu "Flu" (by decide)

/-- C4: the indicator vector has length `N`, fixed at index-build time as
the size of `symptoms_dict`; its entry at offset `i` is `1` when some
symptom of the query maps to offset `i` in the index and `0` otherwise; the
empty query yields the all-zero vector of length `N`. -/
theorem input_vector_spec (cols : List String) (S : List String) :
    (input_vector (symptoms_dict cols) S).length = (symptoms_dict cols).length ∧
    (∀ i, i < (symptoms_dict cols).length →
      (input_vector (symptoms_dict cols) S)[i]?
        = if ∃ s ∈ S, dictLookup (symptoms_dict cols) s = some i then some 1 else some 0) ∧
    input_vector (symptoms_dict cols) [] = List.replicate (symptoms_dict cols).length 0 := by
  refine ⟨?_, ?_, rfl⟩
  · rw [input_vector, foldl_encodeStep_length, List.length_replicate]
  · intro i hi
    rw [input_vector,
        foldl_encodeStep_getElem (symptoms_dict cols) i S
          (List.replicate (symptoms_dict cols).length 0)
          (by rw [List.length_replicate]; exact hi),
        List.getElem?_replicate, if_pos hi]

/-- C4 witness: the literal scenario of the spec — three feature columns and
the query containing `skin_rash` sets offset 1. -/
theorem input_vector_spec_witness :
    (input_vector (symptoms_dict colsEx) symsEx).length = (symptoms_dict colsEx).length ∧
    (input_vector (symptoms_dict colsEx) symsEx)[1]? = some 1 ∧
    input_vector (symptoms_dict colsEx) [] = List.replicate (symptoms_dict colsEx).length 0 := by
  obtain ⟨h1, h2, h3⟩ := input_vector_spec colsEx symsEx
  refine ⟨h1, ?_, h3⟩
  rw [h2 1 (by decide),
      if_pos (⟨"skin_rash", by decide, by decide⟩ :
        ∃ s ∈ symsEx, dictLookup (symptoms_dict colsEx) s = some 1)]

/-- C5: names absent from the index have no effect on the vector — encoding
a query equals encoding its restriction to known names — and every entry of
the vector is `0` or `1`. -/
theorem input_vector_ignores_unknown (d : List (String × Nat)) (S : List String) :
    input_vector d S
      = input_vector d (S.filter (fun s => (dictLookup d s).isSome)) ∧
    ∀ (i : Nat) (x : ℚ), (input_vector d S)[i]? = some x → x = 0 ∨ x = 1 := by
  constructor
  · unfold input_vector
    exact foldl_encodeStep_filter d S (List.replicate d.length 0)
  · intro i x hx
    exact foldl_encodeStep_mem d S (List.replicate d.length 0)
      (fun y hy => Or.inl (List.eq_of_mem_replicate hy)) x (List.getElem?_mem hx)

/-- C5 witness: the query with the unknown name `zzz` encodes the same as
its restriction to known names, and the concrete entry read back is `1`. -/
theorem input_vector_ignores_unknown_witness :
    input_vector (symptoms_dict colsEx) symsEx
      = input_vector (symptoms_dict colsEx)
          (symsEx.filter (fun s => (dictLookup (symptoms_dict colsEx) s).isSome)) ∧
    ((1 : ℚ) = 0 ∨ (1 : ℚ) = 1) :=
  ⟨(input_vector_ignores_unknown (symptoms_dict colsEx) symsEx).1,
   (input_vector_ignores_unknown (symptoms_dict colsEx) symsEx).2 1 1 rfl⟩

/-- C6: the join predicate of `helper` is exact, case-sensitive string
equality with no normalization — a row is selected iff its key cell equals
the label byte-for-byte — and in particular the label `fungal infection`
selects no row keyed `Fungal infection`, while the exactly matching label
does. -/
theorem join_predicate_exact :
    (∀ (k : Option String) (D : String), selRow k D = true ↔ k = some D) ∧
    selRow (some "Fungal infection") "fungal infection" = false ∧
    helper tFungal "fungal infection"
      = Except.ok { desc := "", pre := [], med := [], die := [], wrkout := [] } ∧
    (helper tFungal "Fungal infection").map (fun r => r.desc)
      = Except.ok "A fungal infection is common." :=
  ⟨selRow_iff, rfl, rfl, rfl⟩

/-- C7: the medication, diet and workout components collect the single
designated value column of every matched row of the respective table, in
table row order, with no deduplication and no sorting; zero matched rows
yield the empty list (this is what `selectVals` computes). -/
theorem helper_collects_value_columns (t : Tables) (D : String) (res : HelperResult)
    (h : helper t D = Except.ok res) :
    res.med = selectVals D (t.medications.map (fun r => (r.disease, r.medication))) ∧
    res.die = selectVals D (t.diets.map (fun r => (r.disease, r.diet))) ∧
    res.wrkout = selectVals D (t.workout.map (fun r => (r.disease, r.workout))) := by
  obtain ⟨-, hmed, hdie, hwrk, -⟩ := helper_ok_parts h
  refine ⟨?_, ?_, ?_⟩
  · rw [hmed]
    exact filter_map_eq_selectVals (fun r => r.disease) (fun r => r.medication) D t.medications
  · rw [hdie]
    exact filter_map_eq_selectVals (fun r => r.disease) (fun r => r.diet) D t.diets
  · rw [hwrk]
    exact filter_map_eq_selectVals (fun r => r.disease) (fun r => r.workout) D t.workout

/-- C7 witness: three medication rows in source order `A, B, A` come back in
that order, undeduplicated. -/
theorem helper_collects_value_columns_witness :
    (fluResult.med = selectVals "Flu" (tFlu.medications.map (fun r => (r.disease, r.medication))) ∧
     fluResult.die = selectVals "Flu" (tFlu.diets.map (fun r => (r.disease, r.diet))) ∧
     fluResult.wrkout = selectVals "Flu" (tFlu.workout.map (fun r => (r.disease, r.workout)))) ∧
    fluResult.med = [some "A", some "B", some "A"] :=
  ⟨helper_collects_value_columns tFlu "Flu" fluResult rfl, rfl⟩

/-- C8: the description component is the matched rows' description texts
joined with a single space, in table row order; with zero matching rows it
is the empty string and no error is raised. -/
theorem helper_desc_single_space_join (t : Tables) (D : String)
    (h : ∀ r ∈ matchedDesc t D, (r.text).isSome = true) :
    (helper t D).map (fun res => res.desc)
      = Except.ok (String.intercalate " " ((matchedDesc t D).filterMap (fun r => r.text))) ∧
    (matchedDesc t D = [] → (helper t D).map (fun res => res.desc) = Except.ok "") := by
  have he := helper_eq_of_desc_present h
  constructor
  · rw [he]
    rfl
  · intro h0
    rw [he, h0]
    rfl

/-- C8 witness: two matched description rows joined with one space. -/
theorem helper_desc_single_space_join_witness :
    ((helper tFlu "Flu").map (fun res => res.desc)
      = Except.ok (String.intercalate " " ((matchedDesc tFlu "Flu").filterMap (fun r => r.text))) ∧
     (matchedDesc tFlu "Flu" = [] → (helper tFlu "Flu").map (fun res => res.desc) = Except.ok "")) ∧
    (helper tFlu "Flu").map (fun res => res.desc) = Except.ok "Flu is common. Drink water." :=
  ⟨helper_desc_single_space_join tFlu "Flu" (by decide), rfl⟩

/-- C9 counterexample: a training table with exactly one column (no feature
columns) does not fail: the index build succeeds and returns an empty
index, contradicting the claim that fewer than 2 columns fails fatally. -/
theorem build_index_one_column_no_failure :
    build_index (some ["prognosis"]) = Except.ok [] ∧
    read_training (some ["prognosis"]) = Except.ok ["prognosis"] :=
  ⟨rfl, rfl⟩

/-- C9 amended: the index build fails fatally when the training table is
missing or has no columns at all; with at least one column it succeeds —
with a single column it silently builds an empty index — and a successfully
built index over distinct column names assigns each feature column its
positional offset, the offsets forming the contiguous range `[0, N)` with
`N = number of columns - 1`. -/
theorem build_index_behavior :
    build_index none = Except.error PyError.fileNotFoundError ∧
    build_index (some []) = Except.error PyError.emptyDataError ∧
    ∀ cols : List String, cols ≠ [] → cols.Nodup →
      build_index (some cols) = Except.ok (symptoms_dict cols) ∧
      (symptoms_dict cols).map (fun p => p.1) = cols.dropLast ∧
      (symptoms_dict cols).map (fun p => p.2) = List.range (cols.length - 1) := by
  refine ⟨rfl, rfl, ?_⟩
  intro cols hne hnd
  refine ⟨?_, symptoms_dict_keys hnd, symptoms_dict_vals hnd⟩
  cases cols with
  | nil => exact absurd rfl hne
  | cons c cs => rfl

/-- C9 witness: the amended statement evaluated on the literal training
columns. -/
theorem build_index_behavior_witness :
    build_index (some colsEx) = Except.ok (symptoms_dict colsEx) ∧
    (symptoms_dict colsEx).map (fun p => p.1) = colsEx.dropLast ∧
    (symptoms_dict colsEx).map (fun p => p.2) = List.range (colsEx.length - 1) :=
  build_index_behavior.2.2 colsEx (by decide) (by decide)

/-- C10: the precautions component of `helper` has one entry per matched
precaution row, in table row order, and the entry at position `k` is the
`k`-th matched row's four precaution cells in column order, with no
filtering of empty or missing values. -/
theorem helper_pre_rows_pointwise (t : Tables) (D : String) (res : HelperResult)
    (h : helper t D = Except.ok res) :
    res.pre.length = (matchedPrec t D).length ∧
    ∀ k : Nat, res.pre[k]? = ((matchedPrec t D)[k]?).map (fun r => [r.p1, r.p2, r.p3, r.p4]) := by
  have hp := (helper_ok_parts h).1
  constructor
  · rw [hp, List.length_map]
  · intro k
    rw [hp, List.getElem?_map]

/-- C10 witness: evaluated on `tFlu` at position 0, where the missing
`Precaution_2` cell is kept. -/
theorem helper_pre_rows_pointwise_witness :
    fluResult.pre.length = (matchedPrec tFlu "Flu").length ∧
    fluResult.pre[0]? = ((matchedPrec tFlu "Flu")[0]?).map (fun r => [r.p1, r.p2, r.p3, r.p4]) :=
  ⟨(helper_pre_rows_pointwise tFlu "Flu" fluResult rfl).1,
   (helper_pre_rows_pointwise tFlu "Flu" fluResult rfl).2 0⟩

end ClinicaAI
